import Mathlib

set_option maxHeartbeats 1000000

namespace Qqmgr

/-!
Shallow embedding of the qqmgr core: the QMP protocol client
(`QMPClient` in the Go source, file `internal/qmp.go`) and the VM
supervisor (`Manager` in `internal/vm/manager.go`).

The network is modelled as a script: a list of incoming read items
(parsed lines, read errors, EOF) consumed by the read loop, and a list
of write outcomes consumed by the write path.  Go `error` values are
modelled as their message strings, because the code inspects errors
only through `err.Error()` substring checks.  The `context.Context` is
modelled as a constant `ctxDone : Bool` (the claims under study all
concern runs without cancellation).
-/

/-- JSON values, standing in for Go's `interface{}` decoding of `json.RawMessage`. -/
inductive JVal where
  | null
  | bool (b : Bool)
  | num (n : Int)
  | str (s : String)
  | arr (elems : List JVal)
  | obj (fields : List (String × JVal))

/-- Mirrors Go struct `QMPError` (fields `Class`, `Desc`). -/
structure QMPError where
  Class : String
  Desc : String

/-- Mirrors Go struct `QMPTimestamp`. -/
structure QMPTimestamp where
  Seconds : Int
  Microseconds : Int

/-- Mirrors Go struct `QMPEvent` (fields `Event`, `Data`, `Time`). -/
structure QMPEvent where
  Event : String
  Data : List (String × JVal)
  Time : Option QMPTimestamp

/-- Mirrors Go struct `QMPResponse`: a parsed incoming JSON line with the
three optional fields `Return`, `Error`, `Event`. -/
structure QMPResponse where
  Return : Option JVal
  Error : Option QMPError
  Event : Option QMPEvent

/-- One line delivered by the server: either valid JSON (already decoded
into a `QMPResponse`) or malformed JSON carrying the decoder's error text. -/
inductive Line where
  | malformed (errMsg : String)
  | msg (r : QMPResponse)

/-- One item produced by a blocking `reader.ReadString` call: a full line,
a read error with message `msg`, or `io.EOF`. -/
inductive ReadItem where
  | line (l : Line)
  | readErr (msg : String)
  | eof

/-- Outcome of one buffered write+flush of a command line, chosen by the
environment: success, or a failure of `writer.Write` / `writer.Flush`
carrying the underlying error message. -/
inductive WriteOutcome where
  | ok
  | failWrite (msg : String)
  | failFlush (msg : String)

/-- State of a `QMPClient`: `connected` models `conn != nil` (the
`conn`/`reader`/`writer` fields are set and cleared together in the Go
code), `incoming` is the not-yet-consumed server stream, `events` is the
event buffer and `writes` the script of write outcomes. -/
structure Client where
  socketPath : String
  connected : Bool
  incoming : List ReadItem
  events : List QMPEvent
  writes : List WriteOutcome

/-- Mirrors `NewQMPClient`: a fresh, disconnected client bound to a socket
path, with the environment's network script attached. -/
def NewQMPClient (socketPath : String) (incoming : List ReadItem)
    (writes : List WriteOutcome) : Client :=
  { socketPath := socketPath, connected := false, incoming := incoming,
    events := [], writes := writes }

/-- Message of `ctx.Err()` for a cancelled context. -/
def ctxErrMsg : String := "context canceled"

/-- Mirrors `QMPClient.getResponse`: read lines until one is return- or
error-shaped; event-shaped lines are appended to the event buffer and the
loop continues; a malformed line or a line that is none of the three
shapes is an error; `io.EOF` becomes "connection closed by server".
Returns the result, the remaining stream, and the new event buffer. -/
def getResponse (ctxDone : Bool) :
    List ReadItem → List QMPEvent →
      Except String QMPResponse × List ReadItem × List QMPEvent
  | [], evs =>
    if ctxDone then (.error ctxErrMsg, [], evs)
    else (.error "connection closed by server", [], evs)
  | item :: rest, evs =>
    if ctxDone then (.error ctxErrMsg, item :: rest, evs)
    else
      match item with
      | .eof => (.error "connection closed by server", rest, evs)
      | .readErr m => (.error ("failed to read response: " ++ m), rest, evs)
      | .line (.malformed m) => (.error ("failed to parse response: " ++ m), rest, evs)
      | .line (.msg r) =>
        match r.Event with
        | some e => getResponse ctxDone rest (evs ++ [e])
        | none =>
          if r.Return.isSome || r.Error.isSome then (.ok r, rest, evs)
          else (.error "unknown QMP message type", rest, evs)

/-- Pop the next write outcome from the script; an exhausted script means
writes succeed. -/
def popWrite : List WriteOutcome → WriteOutcome × List WriteOutcome
  | [] => (.ok, [])
  | w :: ws => (w, ws)

/-- Mirrors `QMPClient.sendCommandInternal`: fail if not connected, write
the command line (the JSON encoding of the fixed command maps used by this
client cannot fail), then read the response with `getResponse`.  Events
collected by `getResponse` are kept in the buffer even when it errors. -/
def sendCommandInternal (ctxDone : Bool) (cmd : String) (q : Client) :
    Except String QMPResponse × Client :=
  if q.connected = false then (.error "not connected", q)
  else
    match popWrite q.writes with
    | (WriteOutcome.failWrite m, ws) =>
      (.error ("failed to write command: " ++ m), { q with writes := ws })
    | (WriteOutcome.failFlush m, ws) =>
      (.error ("failed to flush command: " ++ m), { q with writes := ws })
    | (WriteOutcome.ok, ws) =>
      match getResponse ctxDone q.incoming q.events with
      | (res, rest, evs) =>
        (res, { q with incoming := rest, events := evs, writes := ws })

/-- Mirrors `QMPClient.SendCommand`: takes the client mutex and runs
`sendCommandInternal`; in this sequential model the mutex is the identity. -/
def SendCommand (ctxDone : Bool) (cmd : String) (q : Client) :
    Except String QMPResponse × Client :=
  sendCommandInternal ctxDone cmd q

/-- Mirrors `QMPClient.GetEvents`: return all collected events and clear
the buffer. -/
def GetEvents (q : Client) : List QMPEvent × Client :=
  (q.events, { q with events := [] })

/-- Mirrors `QMPClient.closeConnection`: drop the connection unconditionally. -/
def closeConnection (q : Client) : Client :=
  { q with connected := false }

/-- Mirrors `QMPClient.Close`. -/
def Close (q : Client) : Client :=
  closeConnection q

/-- Mirrors `QMPClient.readGreeting`: read one line and require it to be
valid JSON; the parsed value is discarded. -/
def readGreeting : List ReadItem → Except String (List ReadItem)
  | [] => .error "failed to read greeting: EOF"
  | .eof :: _ => .error "failed to read greeting: EOF"
  | .readErr m :: _ => .error ("failed to read greeting: " ++ m)
  | .line (.malformed m) :: _ => .error ("failed to parse greeting: " ++ m)
  | .line (.msg _) :: rest => .ok rest

/-- Outcome of the `net.Dial` call, chosen by the environment. -/
inductive DialResult where
  | ok
  | permDenied
  | failed (msg : String)

/-- Environment for `Connect`: whether the socket file exists
(`os.Stat`) and how the dial goes. -/
structure ConnectEnv where
  socketExists : Bool
  dial : DialResult

/-- Mirrors `QMPClient.Connect`: no-op when already connected; check the
socket path; dial; read the greeting; send `qmp_capabilities` and wait for
its response.  A transport or protocol error while exchanging the
capabilities command closes the connection; note that the code only
inspects the `error` return of `sendCommandInternal`, not the shape of the
response it carries. -/
def Connect (ctxDone : Bool) (env : ConnectEnv) (q : Client) :
    Except String Unit × Client :=
  if q.connected then (.ok (), q)
  else if env.socketExists = false then
    (.error ("QMP socket at " ++ q.socketPath ++ " not found, is QEMU running?"), q)
  else
    match env.dial with
    | .permDenied =>
      (.error ("you lack permissions to talk over socket " ++ q.socketPath), q)
    | .failed m => (.error ("failed to connect to QMP socket: " ++ m), q)
    | .ok =>
      let q1 := { q with connected := true }
      match readGreeting q1.incoming with
      | .error m => (.error ("failed to read QMP greeting: " ++ m), closeConnection q1)
      | .ok rest =>
        let q2 := { q1 with incoming := rest }
        match sendCommandInternal ctxDone "qmp_capabilities" q2 with
        | (.error m, q3) =>
          (.error ("failed to send qmp_capabilities: " ++ m), closeConnection q3)
        | (.ok _, q3) => (.ok (), q3)

/-- Mirrors `QMPClient.Connected`. -/
def Connected (q : Client) : Bool :=
  q.connected

/-- Substring occurrence on character lists (the search of Go
`strings.Contains`). -/
def containsSubList (sub : List Char) : List Char → Bool
  | [] => sub.isEmpty
  | c :: t => sub.isPrefixOf (c :: t) || containsSubList sub t

/-- Go `strings.Contains s sub`. -/
def goContains (s sub : String) : Bool :=
  containsSubList sub.data s.data

/-- The connection-loss check of `QMPClient.shutdown`: the send error's
message contains "connection closed", "broken pipe" or "connection reset". -/
def errIndicatesConnLoss (m : String) : Bool :=
  goContains m "connection closed" || goContains m "broken pipe" ||
    goContains m "connection reset"

/-- Number of iterations of the polling loop in `QMPClient.shutdown`: the
loop body runs at times 0, i, 2i, … strictly before `timeout` (sends are
taken as instantaneous), i.e. ⌈timeout / checkInterval⌉ times.  Durations
are in milliseconds. -/
def shutdownIterations (checkInterval timeout : Nat) : Nat :=
  (timeout + checkInterval - 1) / checkInterval

/-- The polling loop of `QMPClient.shutdown`, fuel = remaining iterations:
check cancellation, send the command; an error whose message indicates
connection loss is the success signal `(true, nil)`; otherwise sleep
(checking cancellation) and repeat; an exhausted deadline yields
`(false, nil)`. -/
def shutdownLoop (ctxDone : Bool) (cmd : String) :
    Nat → Client → (Bool × Option String) × Client
  | 0, q => ((false, none), q)
  | fuel + 1, q =>
    if ctxDone then ((false, some ctxErrMsg), q)
    else
      match SendCommand ctxDone cmd q with
      | (res, q1) =>
        match res with
        | .error m =>
          if errIndicatesConnLoss m then ((true, none), q1)
          else if ctxDone then ((false, some ctxErrMsg), q1)
          else shutdownLoop ctxDone cmd fuel q1
        | .ok _ =>
          if ctxDone then ((false, some ctxErrMsg), q1)
          else shutdownLoop ctxDone cmd fuel q1

/-- Mirrors `QMPClient.shutdown` (lowercase): poll `system_powerdown`, or
`quit` when `force` is set, until the deadline. -/
def shutdown (ctxDone : Bool) (checkInterval timeout : Nat) (force : Bool)
    (q : Client) : (Bool × Option String) × Client :=
  let forceCmd := if force then "quit" else "system_powerdown"
  shutdownLoop ctxDone forceCmd (shutdownIterations checkInterval timeout) q

/-- Mirrors `QMPClient.Shutdown`: graceful phase first; a phase error is
returned as `(false, err)`; on graceful success return `(true, nil)`;
otherwise, when `forceAfterTimeout` is set, run the force phase with a
fixed 5-second timeout (5000 ms). -/
def Shutdown (ctxDone : Bool) (checkInterval timeout : Nat)
    (forceAfterTimeout : Bool) (q : Client) : (Bool × Option String) × Client :=
  match shutdown ctxDone checkInterval timeout false q with
  | ((_, some e), q1) => ((false, some e), q1)
  | ((true, none), q1) => ((true, none), q1)
  | ((false, none), q1) =>
    if forceAfterTimeout then shutdown ctxDone checkInterval 5000 true q1
    else ((false, none), q1)

/-- Line built from an event-shaped message, as the server scripts of the
claims produce them. -/
def eventLine (e : QMPEvent) : ReadItem :=
  .line (.msg { Return := none, Error := none, Event := some e })

/-- Client state before the k-th send attempt of an (uncancelled)
`shutdown` polling loop that starts from `q`. -/
def shutdownSends (cmd : String) (q : Client) : Nat → Client
  | 0 => q
  | k + 1 => (SendCommand false cmd (shutdownSends cmd q k)).2

/-- Result of the k-th send attempt of an (uncancelled) `shutdown` polling
loop that starts from `q`. -/
def shutdownSendRes (cmd : String) (q : Client) (k : Nat) :
    Except String QMPResponse :=
  (SendCommand false cmd (shutdownSends cmd q k)).1

/-- Whether a send outcome is an error whose message indicates connection
loss (the success signal of the shutdown state machine). -/
def isConnLossRes : Except String QMPResponse → Bool
  | .error m => errIndicatesConnLoss m
  | .ok _ => false

/-! ## Higher-level client queries (`CheckStatus`, `IsRunning`) -/

/-- Last binding for a key, matching Go's map semantics where a later
duplicate JSON key overwrites an earlier one. -/
def lookupLast (fields : List (String × JVal)) (k : String) : Option JVal :=
  match fields with
  | [] => none
  | kv :: rest =>
    match lookupLast rest k with
    | some w => some w
    | none => if kv.1 = k then some kv.2 else none

/-- Go `json.Unmarshal` of a response payload into `map[string]interface{}`:
succeeds on a JSON object, leaves the map nil (here: empty) on JSON null,
and fails on anything else. -/
def decodeObj : Option JVal → Option (List (String × JVal))
  | some (JVal.obj fields) => some fields
  | some JVal.null => some []
  | _ => none

/-- Mirrors `QMPClient.CheckStatus`: send `query-status`; a transport
error, an error-shaped response, or an undecodable payload is an error;
otherwise return the decoded status map. -/
def CheckStatus (ctxDone : Bool) (q : Client) :
    Except String (List (String × JVal)) × Client :=
  match SendCommand ctxDone "query-status" q with
  | (.error m, q1) => (.error ("failed to query VM status: " ++ m), q1)
  | (.ok r, q1) =>
    match r.Error with
    | some e => (.error ("error querying VM status: " ++ e.Desc), q1)
    | none =>
      match decodeObj r.Return with
      | none => (.error "failed to parse status response", q1)
      | some fields => (.ok fields, q1)

/-- Mirrors `QMPClient.IsRunning`: `false` on any failure, otherwise the
boolean "running" field of the status map (false when absent or not a
boolean). -/
def IsRunning (ctxDone : Bool) (q : Client) : Bool × Client :=
  match CheckStatus ctxDone q with
  | (.error _, q1) => (false, q1)
  | (.ok fields, q1) =>
    match lookupLast fields "running" with
    | some (JVal.bool b) => (b, q1)
    | _ => (false, q1)

/-! ## VM supervisor (`internal/vm/manager.go`) -/

/-- Result of `os.ReadFile` on the PID file, chosen by the environment. -/
inductive FileRead where
  | notExist
  | readErr (msg : String)
  | content (data : String)

/-- The two failure modes of Go `strconv.Atoi` (`ErrSyntax`-like when the
digits are malformed, `ErrRange`-like on 64-bit overflow); either makes
`Atoi` return a non-nil error. -/
inductive AtoiErr where
  | invalidDigits
  | valueOutOfRange

/-- The distinct error sites of `Manager.readPIDFile`. -/
inductive PIDError where
  | readFailed (msg : String)
  | invalidPID (e : AtoiErr)
  | outOfRange (pid : Int)

/-- Go `unicode.IsSpace`: the Unicode White_Space code points. -/
def goIsSpace (c : Char) : Bool :=
  let n := c.toNat
  (decide (9 ≤ n) && decide (n ≤ 13)) || n == 32 || n == 0x85 || n == 0xA0 ||
    n == 0x1680 || (decide (0x2000 ≤ n) && decide (n ≤ 0x200A)) ||
    n == 0x2028 || n == 0x2029 || n == 0x202F || n == 0x205F || n == 0x3000

/-- Go `strings.TrimSpace`. -/
def trimSpace (s : String) : String :=
  ⟨((s.data.dropWhile goIsSpace).reverse.dropWhile goIsSpace).reverse⟩

/-- Accumulate decimal digits; `none` when a non-digit appears. -/
def parseDigitsAux : List Char → Nat → Option Nat
  | [], acc => some acc
  | c :: rest, acc =>
    if 48 ≤ c.toNat ∧ c.toNat ≤ 57 then
      parseDigitsAux rest (acc * 10 + (c.toNat - 48))
    else none

/-- Go `strconv.Atoi`: optional sign, at least one decimal digit, nothing
else; values outside the signed 64-bit range are a range error. -/
def goAtoi (s : String) : Except AtoiErr Int :=
  match s.data with
  | [] => .error .invalidDigits
  | c :: rest =>
    let signed : Bool × List Char :=
      if c = '-' then (true, rest)
      else if c = '+' then (false, rest)
      else (false, c :: rest)
    match signed.2 with
    | [] => .error .invalidDigits
    | _ :: _ =>
      match parseDigitsAux signed.2 0 with
      | none => .error .invalidDigits
      | some n =>
        let v : Int := if signed.1 then -(n : Int) else (n : Int)
        if v < -(2 ^ 63) ∨ (2 ^ 63 - 1) < v then .error .valueOutOfRange
        else .ok v

/-- Mirrors `Manager.readPIDFile`: a missing file or empty content is no
PID and no error (the emptiness check happens before trimming); otherwise
trim, parse with `Atoi` (failure is the InvalidPID error) and range-check
the value against `(0, 2<<22]` (`2<<22 = 8388608 = 2^23`). -/
def readPIDFile (file : FileRead) : Except PIDError (Option Int) :=
  match file with
  | .notExist => .ok none
  | .readErr m => .error (.readFailed m)
  | .content data =>
    if data = "" then .ok none
    else
      let pidStr := trimSpace data
      match goAtoi pidStr with
      | .error e => .error (.invalidPID e)
      | .ok pid =>
        if pid ≤ 0 ∨ 8388608 < pid then .error (.outOfRange pid)
        else .ok (some pid)

/-- Mirrors `Manager.isProcessRunning`: a nil PID is not running, otherwise
probe the process with signal 0 (the `procExists` oracle). -/
def isProcessRunning (procExists : Int → Bool) : Option Int → Bool
  | none => false
  | some pid => procExists pid

/-- Mirrors `config.VmEntry` as the supervisor reads it: the VM name, the
per-VM runtime paths and the template variables. -/
structure VmEntry where
  Name : String
  pidFilePath : String
  sshConfigPath : String
  serialFilePath : String
  qmpSocketPath : String
  monitorSocketPath : String
  Vars : List (String × JVal)

/-- Mirrors `Manager.getSSHPort`: prefer `Vars["ssh"].port` when `ssh` is a
map with a `port` key, otherwise fall back to `Vars["ssh_host"]`. -/
def getSSHPort (vars : List (String × JVal)) : Option JVal :=
  match lookupLast vars "ssh" with
  | some (JVal.obj sshData) =>
    match lookupLast sshData "port" with
    | some port => some port
    | none => lookupLast vars "ssh_host"
  | _ => lookupLast vars "ssh_host"

/-- Mirrors the `Status` struct of `internal/vm/manager.go`. -/
structure Status where
  Name : String
  PID : Option Int
  PIDFile : String
  IsRunning : Bool
  IsAlive : Bool
  SSHPort : Option JVal
  SSHConfig : String
  SerialFile : String
  QMPSocket : String
  MonitorSocket : String
  QMPConnected : Bool
  StatusDetails : Option (List (String × JVal))

/-- Network environment for one fresh QMP client: dial behaviour plus the
incoming and write scripts. -/
structure QMPEnv where
  connectEnv : ConnectEnv
  incoming : List ReadItem
  writes : List WriteOutcome

/-- Environment of a `GetStatus` call. -/
structure ManagerEnv where
  pidFile : FileRead
  procExists : Int → Bool
  qmp : QMPEnv
  ctxDone : Bool

/-- Mirrors `Manager.checkQMPStatus`: build a fresh client, connect (a
failure is the only error of this function), then `alive := IsRunning`,
`connected := true`, and the detailed status map when `CheckStatus`
succeeds (an empty map otherwise). -/
def checkQMPStatus (m : VmEntry) (qenv : QMPEnv) (ctxDone : Bool) :
    Except String (Bool × Bool × List (String × JVal)) :=
  let q := NewQMPClient m.qmpSocketPath qenv.incoming qenv.writes
  match Connect ctxDone qenv.connectEnv q with
  | (.error m1, _) => .error ("failed to connect to QMP: " ++ m1)
  | (.ok _, q1) =>
    let ar := IsRunning ctxDone q1
    let statusDetails :=
      match CheckStatus ctxDone ar.2 with
      | (.ok st, _) => st
      | (.error _, _) => ([] : List (String × JVal))
    .ok (ar.1, true, statusDetails)

/-- Mirrors `Manager.GetStatus`: a PID-file failure aborts the call; a QMP
failure degrades to `alive = false`, `qmpConnected = false` and
`running = (pid read) && (process exists)`; on QMP success the protocol
answer is authoritative (`running = alive`). -/
def GetStatus (m : VmEntry) (env : ManagerEnv) : Except PIDError Status :=
  match readPIDFile env.pidFile with
  | .error e => .error e
  | .ok pid =>
    match checkQMPStatus m env.qmp env.ctxDone with
    | .error _ =>
      .ok { Name := m.Name, PID := pid, PIDFile := m.pidFilePath,
            IsRunning := pid.isSome && isProcessRunning env.procExists pid,
            IsAlive := false,
            SSHPort := getSSHPort m.Vars, SSHConfig := m.sshConfigPath,
            SerialFile := m.serialFilePath, QMPSocket := m.qmpSocketPath,
            MonitorSocket := m.monitorSocketPath, QMPConnected := false,
            StatusDetails := none }
    | .ok acd =>
      .ok { Name := m.Name, PID := pid, PIDFile := m.pidFilePath,
            IsRunning := acd.1, IsAlive := acd.1,
            SSHPort := getSSHPort m.Vars, SSHConfig := m.sshConfigPath,
            SerialFile := m.serialFilePath, QMPSocket := m.qmpSocketPath,
            MonitorSocket := m.monitorSocketPath, QMPConnected := acd.2.1,
            StatusDetails := some acd.2.2 }

/-- Result of `os.Remove` on one runtime file, chosen by the environment. -/
inductive RemoveOutcome where
  | ok
  | notExist
  | failed (msg : String)

/-- Remove files in order; the first failure that is not "does not exist"
aborts with that file and message. -/
def removeFiles (remove : String → RemoveOutcome) : List String → Option (String × String)
  | [] => none
  | f :: rest =>
    match remove f with
    | .failed msg => some (f, msg)
    | _ => removeFiles remove rest

/-- Mirrors `Manager.cleanupRuntimeFiles`: remove the PID file, serial
file, QMP socket, monitor socket and SSH config; missing files are not
errors. -/
def cleanupRuntimeFiles (m : VmEntry) (remove : String → RemoveOutcome) :
    Option (String × String) :=
  removeFiles remove
    [m.pidFilePath, m.serialFilePath, m.qmpSocketPath, m.monitorSocketPath,
     m.sshConfigPath]

/-- The distinct error sites of `Manager.Stop`. -/
inductive StopErr where
  | statusFailed (e : PIDError)
  | killFailed (pid : Int) (msg : String)
  | cleanupFailed (file : String) (msg : String)

/-- Observable side effects of a `Stop` call: the PIDs it sent SIGKILL to,
whether it attempted a QMP connection of its own (the status computation
uses a separate client), and whether it ran the runtime-file cleanup. -/
structure StopTrace where
  kills : List Int
  qmpConnectTried : Bool
  cleanupRun : Bool

/-- Environment of a `Stop` call: the `GetStatus` environment pieces, a
second network script for Stop's own client, and the removal and kill
oracles. -/
structure StopEnv where
  pidFile : FileRead
  procExists : Int → Bool
  qmp1 : QMPEnv
  qmp2 : QMPEnv
  remove : String → RemoveOutcome
  kill : Int → Option String
  ctxDone : Bool

/-- The `GetStatus` environment used by `Stop`'s initial status check. -/
def statusEnvOf (env : StopEnv) : ManagerEnv :=
  { pidFile := env.pidFile, procExists := env.procExists, qmp := env.qmp1,
    ctxDone := env.ctxDone }

/-- Tail of `Manager.Stop`: run the runtime-file cleanup and report. -/
def stopCleanup (m : VmEntry) (env : StopEnv) (kills : List Int)
    (tried : Bool) : (Bool × Option StopErr) × StopTrace :=
  match cleanupRuntimeFiles m env.remove with
  | some fm =>
    ((false, some (.cleanupFailed fm.1 fm.2)),
     { kills := kills, qmpConnectTried := tried, cleanupRun := true })
  | none =>
    ((true, none), { kills := kills, qmpConnectTried := tried, cleanupRun := true })

/-- Force-kill fallback of `Manager.Stop`: when a PID is known, send it
SIGKILL (`forceKillPID`); a kill failure aborts the call, otherwise fall
through to cleanup. -/
def stopKillThenCleanup (m : VmEntry) (env : StopEnv) (pidOpt : Option Int) :
    (Bool × Option StopErr) × StopTrace :=
  match pidOpt with
  | some pid =>
    match env.kill pid with
    | some msg =>
      ((false, some (.killFailed pid msg)),
       { kills := [pid], qmpConnectTried := true, cleanupRun := false })
    | none => stopCleanup m env [pid] true
  | none => stopCleanup m env [] true

/-- Mirrors `Manager.Stop`: compute the status (failure aborts); when not
running, clean up and report; otherwise connect a fresh client — on
connect failure force-kill the known PID, on connect success run
`Shutdown` with a 1-second poll interval and fall back to force kill when
it errors, or when it reports failure with `forceAfterTimeout` set — and
finally clean up the runtime files. -/
def Stop (m : VmEntry) (env : StopEnv) (timeout : Nat)
    (forceAfterTimeout : Bool) : (Bool × Option StopErr) × StopTrace :=
  match GetStatus m (statusEnvOf env) with
  | .error e =>
    ((false, some (.statusFailed e)),
     { kills := [], qmpConnectTried := false, cleanupRun := false })
  | .ok status =>
    if status.IsRunning = false then
      match cleanupRuntimeFiles m env.remove with
      | some fm =>
        ((false, some (.cleanupFailed fm.1 fm.2)),
         { kills := [], qmpConnectTried := false, cleanupRun := true })
      | none =>
        ((true, none), { kills := [], qmpConnectTried := false, cleanupRun := true })
    else
      match Connect env.ctxDone env.qmp2.connectEnv
          (NewQMPClient m.qmpSocketPath env.qmp2.incoming env.qmp2.writes) with
      | (.error _, _) => stopKillThenCleanup m env status.PID
      | (.ok _, q1) =>
        match Shutdown env.ctxDone 1000 timeout forceAfterTimeout q1 with
        | (sd, _) =>
          if sd.2.isSome then stopKillThenCleanup m env status.PID
          else if !sd.1 && forceAfterTimeout then
            stopKillThenCleanup m env status.PID
          else stopCleanup m env [] true

/-! ## Concrete fixtures used by the closed test theorems -/

/-- A VM entry with fixed runtime paths and no template variables. -/
def vmFixture : VmEntry :=
  { Name := "vm0", pidFilePath := "/r/pid", sshConfigPath := "/r/ssh",
    serialFilePath := "/r/serial", qmpSocketPath := "/r/qmp",
    monitorSocketPath := "/r/mon", Vars := [] }

/-- A well-formed greeting line (any JSON object works, its content is
discarded). -/
def greetItem : ReadItem :=
  .line (.msg { Return := none, Error := none, Event := none })

/-- A `{"return": {}}` line. -/
def retEmptyItem : ReadItem :=
  .line (.msg { Return := some (JVal.obj []), Error := none, Event := none })

/-- QMP environment in which the control socket does not exist. -/
def qmpDownEnv : QMPEnv :=
  { connectEnv := { socketExists := false, dial := .ok }, incoming := [],
    writes := [] }

/-- Stop environment: PID file holds 7 and that process exists; the status
check's QMP socket is missing (so status falls back to the PID); Stop's own
client connects and the server answers the greeting, the capabilities
command and one graceful command without ever closing; removals find no
files; kills succeed. -/
def stopEnvBase : StopEnv :=
  { pidFile := .content "7", procExists := fun p => p == 7,
    qmp1 := qmpDownEnv,
    qmp2 := { connectEnv := { socketExists := true, dial := .ok },
              incoming := [greetItem, retEmptyItem, retEmptyItem],
              writes := [] },
    remove := fun _ => .notExist, kill := fun _ => none, ctxDone := false }

/-- Like `stopEnvBase` but the server also answers the five force-phase
`quit` commands (eight lines in total) without closing. -/
def stopEnvForce : StopEnv :=
  { stopEnvBase with
    qmp2 := { connectEnv := { socketExists := true, dial := .ok },
              incoming := [greetItem, retEmptyItem, retEmptyItem, retEmptyItem,
                retEmptyItem, retEmptyItem, retEmptyItem, retEmptyItem],
              writes := [] } }

/-- Stop environment for a VM that is not running (no PID file, QMP socket
missing) with clean removals. -/
def stopEnvNotRunning : StopEnv :=
  { stopEnvBase with pidFile := FileRead.notExist }

/-- Like `stopEnvNotRunning` but removing the PID file fails with a
permission error. -/
def stopEnvCleanupFail : StopEnv :=
  { stopEnvBase with
    pidFile := FileRead.notExist,
    remove := fun f => if f = "/r/pid" then .failed "permission denied" else .notExist }

/-! ## Basic computation lemmas -/

theorem trimSpace_empty : trimSpace "" = "" := rfl

theorem goAtoi_empty : goAtoi "" = .error .invalidDigits := rfl

theorem pow23_eq : (2 : Int) ^ 23 = 8388608 := by norm_num

/-- C3: PID-file semantics of `Manager.readPIDFile`.  A missing file or
empty content yields no PID and no error; non-empty content whose trimmed
form does not parse as an integer yields the InvalidPID error; a parsed
integer outside `(0, 2^23]` yields the out-of-range error carrying that
integer; a parsed integer in `(0, 2^23]` is returned as the PID, the
surrounding whitespace being ignored by the trim. -/
theorem claim3_readPIDFile_cases :
    (readPIDFile FileRead.notExist = .ok none ∧
      readPIDFile (.content "") = .ok none) ∧
    (∀ (s : String) (ae : AtoiErr), trimSpace s ≠ "" →
      goAtoi (trimSpace s) = .error ae →
      readPIDFile (.content s) = .error (.invalidPID ae)) ∧
    (∀ (s : String) (n : Int), goAtoi (trimSpace s) = .ok n →
      (n ≤ 0 ∨ 2 ^ 23 < n) →
      readPIDFile (.content s) = .error (.outOfRange n)) ∧
    (∀ (s : String) (n : Int), goAtoi (trimSpace s) = .ok n →
      0 < n → n ≤ 2 ^ 23 →
      readPIDFile (.content s) = .ok (some n)) := by
  refine ⟨⟨rfl, rfl⟩, ?_, ?_, ?_⟩
  · intro s ae hts hatoi
    have hs : s ≠ "" := by
      intro h
      exact hts (h ▸ trimSpace_empty)
    unfold readPIDFile
    simp only [hs, if_false, reduceIte, hatoi]
  · intro s n hatoi hrange
    have hs : s ≠ "" := by
      intro h
      rw [h, trimSpace_empty, goAtoi_empty] at hatoi
      exact absurd hatoi (by simp)
    have hrange8 : n ≤ 0 ∨ 8388608 < n := by rw [← pow23_eq]; exact hrange
    unfold readPIDFile
    simp only [hs, reduceIte, hatoi, if_pos hrange8]
  · intro s n hatoi h0 h23
    have hs : s ≠ "" := by
      intro h
      rw [h, trimSpace_empty, goAtoi_empty] at hatoi
      exact absurd hatoi (by simp)
    have hrange8 : ¬(n ≤ 0 ∨ 8388608 < n) := by
      rw [← pow23_eq]
      push_neg
      exact ⟨h0, h23⟩
    unfold readPIDFile
    simp only [hs, reduceIte, hatoi, if_neg hrange8]

/-- Witness for C3: content " 42\n" parses to PID 42. -/
theorem claim3_witness : readPIDFile (.content " 42\n") = .ok (some 42) :=
  claim3_readPIDFile_cases.2.2.2 " 42\n" 42 rfl (by decide) (by decide)

/-- C10: non-empty whitespace-only PID-file content is an error, not an
absent PID — the emptiness check in `readPIDFile` precedes the trim, so
such content reaches `Atoi` as the empty string and fails to parse. -/
theorem claim10_whitespace_only_pidfile_errors (s : String) (hne : s ≠ "")
    (hws : trimSpace s = "") :
    readPIDFile (.content s) = .error (.invalidPID .invalidDigits) := by
  unfold readPIDFile
  simp only [hne, reduceIte, hws, goAtoi_empty]

/-- Witness for C10: a single space errors with the InvalidPID error. -/
theorem claim10_witness :
    readPIDFile (.content " ") = .error (.invalidPID .invalidDigits) :=
  claim10_whitespace_only_pidfile_errors " " (by decide) rfl

/-- C2: `Manager.GetStatus` never fails because of QMP unavailability —
its only error is the PID-file error (first conjunct); when the QMP check
fails it reports `qmpConnected = false`, `alive = false` and
`running = (a PID was read) && (a process with that PID exists)` (second
conjunct). -/
theorem claim2_getStatus_degrades_on_qmp_failure (m : VmEntry) (env : ManagerEnv) :
    (∀ e, GetStatus m env = .error e → readPIDFile env.pidFile = .error e) ∧
    (∀ (pid : Option Int) (em : String), readPIDFile env.pidFile = .ok pid →
      checkQMPStatus m env.qmp env.ctxDone = .error em →
      GetStatus m env = .ok
        { Name := m.Name, PID := pid, PIDFile := m.pidFilePath,
          IsRunning := pid.isSome && isProcessRunning env.procExists pid,
          IsAlive := false,
          SSHPort := getSSHPort m.Vars, SSHConfig := m.sshConfigPath,
          SerialFile := m.serialFilePath, QMPSocket := m.qmpSocketPath,
          MonitorSocket := m.monitorSocketPath, QMPConnected := false,
          StatusDetails := none }) := by
  constructor
  · intro e he
    unfold GetStatus at he
    rcases hp : readPIDFile env.pidFile with e1 | pid
    · rw [hp] at he
      simp only [Except.error.injEq] at he
      rw [he]
    · rw [hp] at he
      rcases hq : checkQMPStatus m env.qmp env.ctxDone with em | acd <;>
        rw [hq] at he <;> simp at he
  · intro pid em hp hq
    unfold GetStatus
    rw [hp, hq]

/-- Witness for C2: socket absent, PID file holds 123 and the process
exists, so the status degrades to the PID-based answer without an error. -/
theorem claim2_witness :
    Except.map Status.IsRunning
        (GetStatus
          { Name := "vm0", pidFilePath := "/r/pid", sshConfigPath := "/r/ssh",
            serialFilePath := "/r/serial", qmpSocketPath := "/r/qmp",
            monitorSocketPath := "/r/mon", Vars := [] }
          { pidFile := .content "123", procExists := fun p => p == 123,
            qmp := { connectEnv := { socketExists := false, dial := .ok },
                     incoming := [], writes := [] },
            ctxDone := false }) = .ok true ∧
    Except.map Status.QMPConnected
        (GetStatus
          { Name := "vm0", pidFilePath := "/r/pid", sshConfigPath := "/r/ssh",
            serialFilePath := "/r/serial", qmpSocketPath := "/r/qmp",
            monitorSocketPath := "/r/mon", Vars := [] }
          { pidFile := .content "123", procExists := fun p => p == 123,
            qmp := { connectEnv := { socketExists := false, dial := .ok },
                     incoming := [], writes := [] },
            ctxDone := false }) = .ok false := by
  have h := (claim2_getStatus_degrades_on_qmp_failure
    { Name := "vm0", pidFilePath := "/r/pid", sshConfigPath := "/r/ssh",
      serialFilePath := "/r/serial", qmpSocketPath := "/r/qmp",
      monitorSocketPath := "/r/mon", Vars := [] }
    { pidFile := .content "123", procExists := fun p => p == 123,
      qmp := { connectEnv := { socketExists := false, dial := .ok },
               incoming := [], writes := [] },
      ctxDone := false }).2 (some 123)
    "failed to connect to QMP: QMP socket at /r/qmp not found, is QEMU running?"
    rfl rfl
  rw [h]
  exact ⟨rfl, rfl⟩

/-! ## Shutdown loop lemmas -/

theorem shutdownSends_shift (cmd : String) (q : Client) (k : Nat) :
    shutdownSends cmd q (k + 1) =
      shutdownSends cmd (SendCommand false cmd q).2 k := by
  induction k with
  | zero => rfl
  | succ n ih =>
    show (SendCommand false cmd (shutdownSends cmd q (n + 1))).2 =
      (SendCommand false cmd (shutdownSends cmd (SendCommand false cmd q).2 n)).2
    rw [ih]

theorem shutdownSendRes_shift (cmd : String) (q : Client) (k : Nat) :
    shutdownSendRes cmd q (k + 1) =
      shutdownSendRes cmd (SendCommand false cmd q).2 k := by
  unfold shutdownSendRes
  rw [shutdownSends_shift]

theorem shutdownSendRes_zero (cmd : String) (q : Client) :
    shutdownSendRes cmd q 0 = (SendCommand false cmd q).1 := rfl

theorem shutdownLoop_connLoss (cmd : String) : ∀ (fuel k : Nat) (q : Client),
    k < fuel → isConnLossRes (shutdownSendRes cmd q k) = true →
    (shutdownLoop false cmd fuel q).1 = (true, none) := by
  intro fuel
  induction fuel with
  | zero => intro k q hk _; exact absurd hk (Nat.not_lt_zero k)
  | succ n ih =>
    intro k q hk hcl
    rcases hres : SendCommand false cmd q with ⟨res, q1⟩
    cases res with
    | error m =>
      by_cases hm : errIndicatesConnLoss m = true
      · simp [shutdownLoop, hres, hm]
      · have hmf : errIndicatesConnLoss m = false := eq_false_of_ne_true hm
        cases k with
        | zero =>
          exfalso
          have h0 : shutdownSendRes cmd q 0 = .error m := by
            rw [shutdownSendRes_zero, hres]
          rw [h0] at hcl
          simp [isConnLossRes, hmf] at hcl
        | succ j =>
          have hsh := shutdownSendRes_shift cmd q j
          rw [hres] at hsh
          rw [hsh] at hcl
          have hrec := ih j q1 (Nat.lt_of_succ_lt_succ hk) hcl
          simp [shutdownLoop, hres, hmf, hrec]
    | ok r =>
      cases k with
      | zero =>
        exfalso
        have h0 : shutdownSendRes cmd q 0 = .ok r := by
          rw [shutdownSendRes_zero, hres]
        rw [h0] at hcl
        simp [isConnLossRes] at hcl
      | succ j =>
        have hsh := shutdownSendRes_shift cmd q j
        rw [hres] at hsh
        rw [hsh] at hcl
        have hrec := ih j q1 (Nat.lt_of_succ_lt_succ hk) hcl
        simp [shutdownLoop, hres, hrec]

theorem shutdownLoop_noConnLoss (cmd : String) : ∀ (fuel : Nat) (q : Client),
    (∀ k, isConnLossRes (shutdownSendRes cmd q k) = false) →
    (shutdownLoop false cmd fuel q).1 = (false, none) := by
  intro fuel
  induction fuel with
  | zero => intro q _; rfl
  | succ n ih =>
    intro q h
    rcases hres : SendCommand false cmd q with ⟨res, q1⟩
    have hshift : ∀ k, isConnLossRes (shutdownSendRes cmd q1 k) = false := by
      intro k
      have hsh := shutdownSendRes_shift cmd q k
      rw [hres] at hsh
      rw [← hsh]
      exact h (k + 1)
    cases res with
    | error m =>
      have h0 : errIndicatesConnLoss m = false := by
        have h0' := h 0
        rw [shutdownSendRes_zero, hres] at h0'
        simpa [isConnLossRes] using h0'
      simp [shutdownLoop, hres, h0, ih q1 hshift]
    | ok r => simp [shutdownLoop, hres, ih q1 hshift]

/-- C1: when the k-th graceful send of the shutdown state machine fails
with an error message indicating connection loss (broken pipe, connection
reset or connection closed), and k lies within the graceful window,
`Shutdown` returns `succeeded = true` with no error; moreover the polling
loop already returns `(true, none)` with only `k + 1` iterations of fuel,
i.e. immediately at that send, without waiting for the rest of the
graceful timeout. -/
theorem claim1_shutdown_connloss_success (q : Client)
    (checkInterval timeout k : Nat) (forceAfterTimeout : Bool)
    (hk : k < shutdownIterations checkInterval timeout)
    (hcl : isConnLossRes (shutdownSendRes "system_powerdown" q k) = true) :
    (Shutdown false checkInterval timeout forceAfterTimeout q).1 = (true, none) ∧
    (shutdownLoop false "system_powerdown" (k + 1) q).1 = (true, none) := by
  have h1 := shutdownLoop_connLoss "system_powerdown"
    (shutdownIterations checkInterval timeout) k q hk hcl
  refine ⟨?_, shutdownLoop_connLoss "system_powerdown" (k + 1) k q
    (Nat.lt_succ_self k) hcl⟩
  have hcmd : shutdown false checkInterval timeout false q =
      shutdownLoop false "system_powerdown"
        (shutdownIterations checkInterval timeout) q := rfl
  unfold Shutdown
  rw [hcmd]
  rcases hres : shutdownLoop false "system_powerdown"
      (shutdownIterations checkInterval timeout) q with ⟨⟨b, eo⟩, q1⟩
  rw [hres] at h1
  simp only [Prod.mk.injEq] at h1
  rw [h1.1, h1.2]

/-- Witness for C1: a connected client whose stream ends at once (EOF on
the first read, i.e. the server closed the connection) makes `Shutdown`
report success immediately. -/
theorem claim1_witness :
    (Shutdown false 1000 20000 false
      { socketPath := "/s", connected := true, incoming := [], events := [],
        writes := [] }).1 = (true, none) :=
  (claim1_shutdown_connloss_success
    { socketPath := "/s", connected := true, incoming := [], events := [],
      writes := [] } 1000 20000 0 false (by decide) rfl).1

/-- C8: when no graceful send ever observes connection loss and
`forceAfterTimeout` is false, `Shutdown` ends with `succeeded = false` and
a nil error once the graceful window is exhausted (the run is
uncancelled): the timeout is not itself an error. -/
theorem claim8_timeout_reports_false_nil (q : Client)
    (checkInterval timeout : Nat)
    (hnc : ∀ k, isConnLossRes (shutdownSendRes "system_powerdown" q k) = false) :
    (Shutdown false checkInterval timeout false q).1 = (false, none) := by
  have h1 := shutdownLoop_noConnLoss "system_powerdown"
    (shutdownIterations checkInterval timeout) q hnc
  have hcmd : shutdown false checkInterval timeout false q =
      shutdownLoop false "system_powerdown"
        (shutdownIterations checkInterval timeout) q := rfl
  unfold Shutdown
  rw [hcmd]
  rcases hres : shutdownLoop false "system_powerdown"
      (shutdownIterations checkInterval timeout) q with ⟨⟨b, eo⟩, q1⟩
  rw [hres] at h1
  simp only [Prod.mk.injEq] at h1
  rw [h1.1, h1.2]
  simp

theorem shutdownSends_disconnected (cmd : String) (q : Client)
    (hq : q.connected = false) : ∀ k, shutdownSends cmd q k = q := by
  intro k
  induction k with
  | zero => rfl
  | succ n ih =>
    show (SendCommand false cmd (shutdownSends cmd q n)).2 = q
    rw [ih]
    unfold SendCommand sendCommandInternal
    rw [hq]
    simp

/-- Witness for C8: a client whose sends all fail with "not connected"
(no connection loss is ever observed) yields `(false, none)`. -/
theorem claim8_witness :
    (Shutdown false 1000 20000 false
      { socketPath := "/s", connected := false, incoming := [], events := [],
        writes := [] }).1 = (false, none) := by
  apply claim8_timeout_reports_false_nil
  intro k
  unfold shutdownSendRes
  rw [shutdownSends_disconnected _ _ rfl k]
  rfl

/-! ## Read-path lemmas -/

theorem getResponse_skip_events : ∀ (evs : List QMPEvent)
    (items : List ReadItem) (acc : List QMPEvent),
    getResponse false (List.map eventLine evs ++ items) acc =
      getResponse false items (acc ++ evs) := by
  intro evs
  induction evs with
  | nil => intro items acc; simp
  | cons e es ih =>
    intro items acc
    have hstep : getResponse false
        (eventLine e :: (List.map eventLine es ++ items)) acc =
        getResponse false (List.map eventLine es ++ items) (acc ++ [e]) := by
      simp [getResponse, eventLine]
    rw [List.map_cons, List.cons_append, hstep, ih, List.append_assoc]
    rfl

theorem getResponse_returns (r : QMPResponse) (hEv : r.Event = none)
    (hShape : (r.Return.isSome || r.Error.isSome) = true)
    (rest : List ReadItem) (acc : List QMPEvent) :
    getResponse false (ReadItem.line (Line.msg r) :: rest) acc =
      (.ok r, rest, acc) := by
  simp [getResponse, hEv, hShape]

theorem getResponse_unknown (r : QMPResponse) (hEv : r.Event = none)
    (hR : r.Return = none) (hE : r.Error = none)
    (rest : List ReadItem) (acc : List QMPEvent) :
    getResponse false (ReadItem.line (Line.msg r) :: rest) acc =
      (.error "unknown QMP message type", rest, acc) := by
  simp [getResponse, hEv, hR, hE]

/-- C6: over the read loop of `SendCommand`, event-shaped lines read while
waiting for the response are appended to the event buffer in arrival order
and never complete the call — the call returns exactly the first return-
or error-shaped line, leaving the rest of the stream untouched; a
subsequent `GetEvents` drain returns exactly the buffered events in order
and empties the buffer (first conjunct).  A line that is neither event-
nor return/error-shaped yields the protocol error (second conjunct). -/
theorem claim6_sendcommand_event_buffering :
    (∀ (cmd : String) (q : Client) (evs : List QMPEvent) (r : QMPResponse)
        (rest : List ReadItem),
      q.connected = true → q.writes = [] →
      q.incoming = List.map eventLine evs ++ ReadItem.line (Line.msg r) :: rest →
      r.Event = none → (r.Return.isSome || r.Error.isSome) = true →
      (SendCommand false cmd q).1 = .ok r ∧
      (SendCommand false cmd q).2.incoming = rest ∧
      (SendCommand false cmd q).2.events = q.events ++ evs ∧
      (GetEvents (SendCommand false cmd q).2).1 = q.events ++ evs ∧
      (GetEvents (SendCommand false cmd q).2).2.events = []) ∧
    (∀ (cmd : String) (q : Client) (evs : List QMPEvent) (r : QMPResponse)
        (rest : List ReadItem),
      q.connected = true → q.writes = [] →
      q.incoming = List.map eventLine evs ++ ReadItem.line (Line.msg r) :: rest →
      r.Event = none → r.Return = none → r.Error = none →
      (SendCommand false cmd q).1 = .error "unknown QMP message type") := by
  constructor
  · intro cmd q evs r rest hc hw hinc hEv hShape
    rcases q with ⟨sp, conn, inc, evts, wr⟩
    simp only at hc hw hinc
    subst hc
    subst hw
    subst hinc
    unfold SendCommand sendCommandInternal
    simp only [reduceIte, popWrite, Bool.true_eq_false]
    rw [getResponse_skip_events, getResponse_returns r hEv hShape]
    simp [GetEvents]
  · intro cmd q evs r rest hc hw hinc hEv hR hE
    rcases q with ⟨sp, conn, inc, evts, wr⟩
    simp only at hc hw hinc
    subst hc
    subst hw
    subst hinc
    unfold SendCommand sendCommandInternal
    simp only [reduceIte, popWrite, Bool.true_eq_false]
    rw [getResponse_skip_events, getResponse_unknown r hEv hR hE]

/-- Witness for C6: a scripted server emits one event line between the
command and its response; `SendCommand` returns the response and the drain
yields exactly that one event and empties the buffer. -/
theorem claim6_witness :
    (SendCommand false "query-status"
      { socketPath := "/s", connected := true,
        incoming := [eventLine { Event := "POWERDOWN", Data := [], Time := none },
          ReadItem.line (Line.msg
            { Return := some (JVal.obj []), Error := none, Event := none })],
        events := [], writes := [] }).1 =
      .ok { Return := some (JVal.obj []), Error := none, Event := none } ∧
    (GetEvents (SendCommand false "query-status"
      { socketPath := "/s", connected := true,
        incoming := [eventLine { Event := "POWERDOWN", Data := [], Time := none },
          ReadItem.line (Line.msg
            { Return := some (JVal.obj []), Error := none, Event := none })],
        events := [], writes := [] }).2).1 =
      [{ Event := "POWERDOWN", Data := [], Time := none }] ∧
    (GetEvents (SendCommand false "query-status"
      { socketPath := "/s", connected := true,
        incoming := [eventLine { Event := "POWERDOWN", Data := [], Time := none },
          ReadItem.line (Line.msg
            { Return := some (JVal.obj []), Error := none, Event := none })],
        events := [], writes := [] }).2).2.events = [] := by
  have h := claim6_sendcommand_event_buffering.1 "query-status"
    { socketPath := "/s", connected := true,
      incoming := [eventLine { Event := "POWERDOWN", Data := [], Time := none },
        ReadItem.line (Line.msg
          { Return := some (JVal.obj []), Error := none, Event := none })],
      events := [], writes := [] }
    [{ Event := "POWERDOWN", Data := [], Time := none }]
    { Return := some (JVal.obj []), Error := none, Event := none }
    [] rfl rfl rfl rfl rfl
  exact ⟨h.1, h.2.2.2.1, h.2.2.2.2⟩

/-! ## Connect lemmas -/

theorem sendCommandInternal_connected (d : Bool) (cmd : String) (q : Client) :
    (sendCommandInternal d cmd q).2.connected = q.connected := by
  by_cases hc : q.connected = false
  · simp [sendCommandInternal, hc]
  · rcases hpw : popWrite q.writes with ⟨w, ws⟩
    cases w with
    | ok =>
      rcases hgr : getResponse d q.incoming q.events with ⟨res, rr⟩
      simp [sendCommandInternal, hc, hpw, hgr]
    | failWrite m => simp [sendCommandInternal, hc, hpw]
    | failFlush m => simp [sendCommandInternal, hc, hpw]

/-- C4 (amended): for a fresh client that dials successfully and reads a
valid greeting, an I/O or protocol failure while exchanging the
`qmp_capabilities` command makes `Connect` return an error and leaves the
client Disconnected (first conjunct); an error-shaped capabilities
response, however, is not a failure of the exchange: `Connect` returns
success and the client stays Connected (second conjunct). -/
theorem claim4_capabilities_failure_behaviour (d : Bool) (env : ConnectEnv)
    (q : Client) (rest : List ReadItem) (hq : q.connected = false)
    (hs : env.socketExists = true) (hd : env.dial = DialResult.ok)
    (hg : readGreeting q.incoming = .ok rest) :
    (∀ (m : String) (q3 : Client),
      sendCommandInternal d "qmp_capabilities"
          { q with connected := true, incoming := rest } = (.error m, q3) →
      Connect d env q =
        (.error ("failed to send qmp_capabilities: " ++ m), closeConnection q3) ∧
      (Connect d env q).2.connected = false) ∧
    (∀ (r : QMPResponse) (q3 : Client),
      sendCommandInternal d "qmp_capabilities"
          { q with connected := true, incoming := rest } = (.ok r, q3) →
      Connect d env q = (.ok (), q3) ∧ (Connect d env q).2.connected = true) := by
  have hC : Connect d env q =
      (match sendCommandInternal d "qmp_capabilities"
          { q with connected := true, incoming := rest } with
        | (.error m, q3) =>
          (.error ("failed to send qmp_capabilities: " ++ m), closeConnection q3)
        | (.ok _, q3) => (.ok (), q3)) := by
    unfold Connect
    simp only [hq, hs, hd, Bool.false_eq_true, if_false, reduceIte]
    rw [show ({ q with connected := true } : Client).incoming = q.incoming from rfl,
      hg]
    simp
  constructor
  · intro m q3 hsend
    rw [hC, hsend]
    exact ⟨rfl, rfl⟩
  · intro r q3 hsend
    have hconn := sendCommandInternal_connected d "qmp_capabilities"
      { q with connected := true, incoming := rest }
    rw [hsend] at hconn
    rw [hC, hsend]
    exact ⟨rfl, hconn⟩

/-- Counterexample for C4 as stated: the server answers the capabilities
command with an error-shaped response (`{"error": ...}`); `Connect`
nevertheless returns success and the client is left Connected, because the
code only checks the transport error of the exchange, not the shape of the
response. -/
theorem claim4_counterexample :
    (Connect false { socketExists := true, dial := DialResult.ok }
      (NewQMPClient "/run/vm.sock"
        [ReadItem.line (Line.msg { Return := none, Error := none, Event := none }),
         ReadItem.line (Line.msg
           { Return := none,
             Error := some { Class := "GenericError", Desc := "denied" },
             Event := none })] [])).1 = .ok () ∧
    (Connect false { socketExists := true, dial := DialResult.ok }
      (NewQMPClient "/run/vm.sock"
        [ReadItem.line (Line.msg { Return := none, Error := none, Event := none }),
         ReadItem.line (Line.msg
           { Return := none,
             Error := some { Class := "GenericError", Desc := "denied" },
             Event := none })] [])).2.connected = true :=
  ⟨rfl, rfl⟩

/-- Witness for C4 (amended): the connection drops (EOF) right after the
greeting, so the capabilities exchange fails with an I/O error and
`Connect` errors out, leaving the client Disconnected. -/
theorem claim4_witness :
    (Connect false { socketExists := true, dial := DialResult.ok }
      (NewQMPClient "/r/qmp"
        [ReadItem.line (Line.msg { Return := none, Error := none, Event := none }),
         ReadItem.eof] [])).1 =
      .error "failed to send qmp_capabilities: connection closed by server" ∧
    (Connect false { socketExists := true, dial := DialResult.ok }
      (NewQMPClient "/r/qmp"
        [ReadItem.line (Line.msg { Return := none, Error := none, Event := none }),
         ReadItem.eof] [])).2.connected = false := by
  have h := (claim4_capabilities_failure_behaviour false
    { socketExists := true, dial := DialResult.ok }
    (NewQMPClient "/r/qmp"
      [ReadItem.line (Line.msg { Return := none, Error := none, Event := none }),
       ReadItem.eof] [])
    [ReadItem.eof] rfl rfl rfl rfl).1 "connection closed by server"
    { socketPath := "/r/qmp", connected := true, incoming := [], events := [],
      writes := [] } rfl
  exact ⟨by rw [h.1]; rfl, h.2⟩

/-! ## Stop lemmas -/

theorem stopKillThenCleanup_kills (m : VmEntry) (env : StopEnv) (pid : Int) :
    (stopKillThenCleanup m env (some pid)).2.kills = [pid] := by
  rcases hk : env.kill pid with _ | msg
  · rcases hc : cleanupRuntimeFiles m env.remove with _ | fm
    · simp [stopKillThenCleanup, stopCleanup, hk, hc]
    · simp [stopKillThenCleanup, stopCleanup, hk, hc]
  · simp [stopKillThenCleanup, hk]

/-- C7 (amended): on a VM whose computed status reports not-running,
`Stop` sends no kill, opens no QMP connection of its own, and runs the
runtime-file cleanup; it returns success `(true, none)` when cleanup
succeeds, and the cleanup error when a removal fails for a reason other
than the file being absent. -/
theorem claim7_stop_idempotent_cleanup (m : VmEntry) (env : StopEnv)
    (timeout : Nat) (forceAfterTimeout : Bool) (s : Status)
    (hs : GetStatus m (statusEnvOf env) = .ok s) (hr : s.IsRunning = false) :
    (Stop m env timeout forceAfterTimeout).2.kills = [] ∧
    (Stop m env timeout forceAfterTimeout).2.qmpConnectTried = false ∧
    (Stop m env timeout forceAfterTimeout).2.cleanupRun = true ∧
    (cleanupRuntimeFiles m env.remove = none →
      (Stop m env timeout forceAfterTimeout).1 = (true, none)) ∧
    (∀ f msg, cleanupRuntimeFiles m env.remove = some (f, msg) →
      (Stop m env timeout forceAfterTimeout).1 =
        (false, some (.cleanupFailed f msg))) := by
  have hstop : Stop m env timeout forceAfterTimeout =
      match cleanupRuntimeFiles m env.remove with
      | some fm =>
        ((false, some (.cleanupFailed fm.1 fm.2)),
         { kills := [], qmpConnectTried := false, cleanupRun := true })
      | none =>
        ((true, none), { kills := [], qmpConnectTried := false, cleanupRun := true }) := by
    unfold Stop
    rw [hs]
    simp [hr]
  rcases hc : cleanupRuntimeFiles m env.remove with _ | ⟨f0, m0⟩
  · rw [hc] at hstop
    refine ⟨by rw [hstop], by rw [hstop], by rw [hstop], fun _ => by rw [hstop], ?_⟩
    intro f msg hc2
    exact absurd hc2 (by simp)
  · rw [hc] at hstop
    refine ⟨by rw [hstop], by rw [hstop], by rw [hstop], ?_, ?_⟩
    · intro h2
      exact absurd h2 (by simp)
    · intro f msg hc2
      simp only [Option.some.injEq, Prod.mk.injEq] at hc2
      rw [hstop, hc2.1, hc2.2]

/-- Counterexample for C7 as stated: the VM is reported not-running, but
removing the stale PID file fails with a permission error, so `Stop`
returns failure rather than success — stopping an already-stopped VM does
not always succeed. -/
theorem claim7_counterexample :
    Except.map Status.IsRunning (GetStatus vmFixture (statusEnvOf stopEnvCleanupFail)) =
      .ok false ∧
    (Stop vmFixture stopEnvCleanupFail 20000 true).1.1 = false ∧
    ((Stop vmFixture stopEnvCleanupFail 20000 true).1.2).isSome = true ∧
    (Stop vmFixture stopEnvCleanupFail 20000 true).2.kills = [] :=
  ⟨rfl, rfl, rfl, rfl⟩

/-- Witness for C7 (amended): not running, removals all report "does not
exist", so `Stop` succeeds with no kill and no own QMP connection. -/
theorem claim7_witness :
    (Stop vmFixture stopEnvNotRunning 20000 true).1 = (true, none) ∧
    (Stop vmFixture stopEnvNotRunning 20000 true).2.kills = [] ∧
    (Stop vmFixture stopEnvNotRunning 20000 true).2.qmpConnectTried = false := by
  have h := claim7_stop_idempotent_cleanup vmFixture stopEnvNotRunning 20000 true
    { Name := "vm0", PID := none, PIDFile := "/r/pid", IsRunning := false,
      IsAlive := false, SSHPort := none, SSHConfig := "/r/ssh",
      SerialFile := "/r/serial", QMPSocket := "/r/qmp", MonitorSocket := "/r/mon",
      QMPConnected := false, StatusDetails := none } rfl rfl
  exact ⟨h.2.2.2.1 rfl, h.1, h.2.1⟩

/-- C5 (amended): when the status reports running with a known PID, Stop's
own QMP connection succeeds, and the Shutdown state machine either returns
an error, or reports failure while `forceAfterTimeout` is set, `Stop`
falls back to forcibly killing exactly that PID. -/
theorem claim5_force_kill_fallback (m : VmEntry) (env : StopEnv)
    (timeout : Nat) (forceAfterTimeout : Bool) (s : Status) (pid : Int)
    (q1 : Client) (sd : Bool × Option String) (q2 : Client)
    (hs : GetStatus m (statusEnvOf env) = .ok s)
    (hr : s.IsRunning = true)
    (hpid : s.PID = some pid)
    (hc : Connect env.ctxDone env.qmp2.connectEnv
        (NewQMPClient m.qmpSocketPath env.qmp2.incoming env.qmp2.writes) =
      (.ok (), q1))
    (hsd : Shutdown env.ctxDone 1000 timeout forceAfterTimeout q1 = (sd, q2))
    (hfail : sd.2.isSome = true ∨ (sd.1 = false ∧ forceAfterTimeout = true)) :
    (Stop m env timeout forceAfterTimeout).2.kills = [pid] := by
  have hstop : Stop m env timeout forceAfterTimeout =
      stopKillThenCleanup m env s.PID := by
    unfold Stop
    rw [hs]
    simp only [hr, Bool.true_eq_false, if_false, reduceIte]
    rw [hc]
    dsimp only
    rw [hsd]
    dsimp only
    rcases hfail with h | ⟨h1, h2⟩
    · simp [h]
    · by_cases hio : sd.2.isSome = true
      · simp [hio]
      · simp [eq_false_of_ne_true hio, h1, h2]
  rw [hstop, hpid, stopKillThenCleanup_kills]

/-- Counterexample for C5 as stated: status reports running with PID 7,
Stop's QMP connection succeeds, `Shutdown` reports failure
(`succeeded = false`, nil error) with `forceAfterTimeout = false` — and
`Stop` performs no kill at all (and even reports overall success). -/
theorem claim5_counterexample :
    Except.map Status.IsRunning (GetStatus vmFixture (statusEnvOf stopEnvBase)) =
      .ok true ∧
    Except.map Status.PID (GetStatus vmFixture (statusEnvOf stopEnvBase)) =
      .ok (some 7) ∧
    (Connect false stopEnvBase.qmp2.connectEnv
      (NewQMPClient "/r/qmp" stopEnvBase.qmp2.incoming stopEnvBase.qmp2.writes)).1 =
      .ok () ∧
    (Shutdown false 1000 1000 false
      (Connect false stopEnvBase.qmp2.connectEnv
        (NewQMPClient "/r/qmp" stopEnvBase.qmp2.incoming
          stopEnvBase.qmp2.writes)).2).1 = (false, none) ∧
    (Stop vmFixture stopEnvBase 1000 false).2.kills = [] ∧
    (Stop vmFixture stopEnvBase 1000 false).1 = (true, none) :=
  ⟨rfl, rfl, rfl, rfl, rfl, rfl⟩

/-- Witness for C5 (amended): same running VM, `forceAfterTimeout = true`,
the server answers every graceful and force command without closing, so
`Shutdown` reports failure and `Stop` force-kills PID 7. -/
theorem claim5_witness :
    (Stop vmFixture stopEnvForce 1000 true).2.kills = [7] := by
  apply claim5_force_kill_fallback vmFixture stopEnvForce 1000 true
    { Name := "vm0", PID := some 7, PIDFile := "/r/pid", IsRunning := true,
      IsAlive := false, SSHPort := none, SSHConfig := "/r/ssh",
      SerialFile := "/r/serial", QMPSocket := "/r/qmp", MonitorSocket := "/r/mon",
      QMPConnected := false, StatusDetails := none } 7
    { socketPath := "/r/qmp", connected := true,
      incoming := [retEmptyItem, retEmptyItem, retEmptyItem, retEmptyItem,
        retEmptyItem, retEmptyItem],
      events := [], writes := [] }
    (false, none)
    { socketPath := "/r/qmp", connected := true, incoming := [], events := [],
      writes := [] }
    rfl rfl rfl rfl rfl (Or.inr ⟨rfl, rfl⟩)

end Qqmgr
